import Mathlib

/-
Shallow embedding of src/rev_generator.py (function create_rev_killfeed) from
the FastAPI_KillfeedGenerator repository, together with theorems settling the
frozen claims about it.

Modelling conventions:
* Text pixel widths, asset pixel widths and heights are abstract natural
  number parameters collected in `Metrics` (PIL font metrics and image sizes
  are inputs of the algorithm, not computed by it).
* Availability of each asset file on disk is a boolean in `AssetEnv`
  (`Image.open` raising FileNotFoundError corresponds to the flag being
  false).
* Every `Image.paste` / `ImageDraw.text` call is recorded as a `Paste`
  (a label plus absolute x/y coordinates in the current image); pasting a
  whole previous canvas at offset `(dx, dy)` shifts all of its recorded
  pastes by that offset.
* Python `int()` truncation on the non-negative quantities involved is
  floor; where a quantity is genuinely rational (half a weapon width) we
  compute in `ℚ` and take `Int.floor`.
* The control flow of `create_rev_killfeed` (early returns on missing font
  or required assets, the caught FileNotFoundError for the optional
  headshot / wallbang / MeBorder images, the uncaught opens of
  MeBorderTriangle.png and the numeral asset, and the sequence of `.save`
  calls) is modelled by `run`, which returns an `Outcome`.
-/

namespace Killfeed

/-- Fixed constants of rev_generator.py: AGENT_ICON_SIZE = (256, 128). -/
def AGENT_ICON_W : ℕ := 256

/-- IMG_HEIGHT = 128. -/
def IMG_HEIGHT : ℕ := 128

/-- WEAPON_ICON_HEIGHT = 90. -/
def WEAPON_ICON_HEIGHT : ℕ := 90

/-- HEADSHOT_ICON_SIZE = (72, 72). -/
def HEADSHOT_ICON_W : ℕ := 72

/-- PADDING = 40. -/
def PADDING : ℕ := 40

/-- ME_SIZE = 128. -/
def ME_SIZE : ℕ := 128

/-- The arguments of create_rev_killfeed. -/
structure KillEvent where
  killer_name : String
  victim_name : String
  killer_agent : String
  victim_agent : String
  weapon : String
  is_headshot : Bool
  is_player_kill : Bool
  is_wallbang : Bool
  numeral : Option String
deriving DecidableEq

/-- Pixel measurements that PIL produces for the given inputs: rendered text
widths (`textlength`), text bounding-box heights (`font.getbbox(...)[3]`),
the weapon icon width after the aspect-ratio resize to height 90, and the
native sizes of the MeBorderTriangle and numeral overlay assets. -/
structure Metrics where
  killerNameWidth : ℕ
  victimNameWidth : ℕ
  weaponWidth : ℕ
  killerBBoxH : ℕ
  victimBBoxH : ℕ
  triangleWidth : ℕ
  triangleHeight : ℕ
  numeralWidth : ℕ
  numeralHeight : ℕ
deriving DecidableEq

/-- Which asset files exist on disk for this invocation. -/
structure AssetEnv where
  fontOk : Bool
  killerAgentOk : Bool
  victimAgentOk : Bool
  weaponOk : Bool
  headshotOk : Bool
  wallbangOk : Bool
  meBorderOk : Bool
  meBorderTriangleOk : Bool
  numeralOk : Bool
deriving DecidableEq

/-- The headshot flag after the load step: `is_headshot` is set to False when
headshot.png is missing (lines 114-120). -/
def effHeadshot (env : AssetEnv) (e : KillEvent) : Bool :=
  e.is_headshot && env.headshotOk

/-- The wallbang flag after the load step (lines 122-128). -/
def effWallbang (env : AssetEnv) (e : KillEvent) : Bool :=
  e.is_wallbang && env.wallbangOk

/-- headshot_width: icon width plus 10 padding when the headshot is kept,
otherwise 0 (lines 112-120). -/
def headshot_width (env : AssetEnv) (e : KillEvent) : ℕ :=
  if effHeadshot env e then HEADSHOT_ICON_W + 10 else 0

/-- wallbang_width: the wallbang icon is resized to (72, 72), then 10 padding
is added when kept, otherwise 0 (lines 113-128). -/
def wallbang_width (env : AssetEnv) (e : KillEvent) : ℕ :=
  if effWallbang env e then 72 + 10 else 0

/-- total_width, exactly as summed on lines 131-133 of rev_generator.py. -/
def total_width (env : AssetEnv) (e : KillEvent) (m : Metrics) : ℕ :=
  AGENT_ICON_W + PADDING + m.killerNameWidth + PADDING +
    m.weaponWidth + headshot_width env e + PADDING + wallbang_width env e + PADDING +
    m.victimNameWidth + PADDING + AGENT_ICON_W

/-- The total width as the specification words it: agent icon, padding,
killer name, padding, weapon, wallbang contribution, headshot contribution,
padding, victim name, padding, agent icon — four padding terms in all.
Spec-side definition, kept for comparison with `total_width`. -/
def claimedTotalWidth (env : AssetEnv) (e : KillEvent) (m : Metrics) : ℕ :=
  AGENT_ICON_W + PADDING + m.killerNameWidth + PADDING +
    m.weaponWidth + wallbang_width env e + headshot_width env e + PADDING +
    m.victimNameWidth + PADDING + AGENT_ICON_W

/-- mid_point_x, the seam between the two background polygons (line 142). -/
def mid_point_x (env : AssetEnv) (e : KillEvent) (m : Metrics) : ℕ :=
  AGENT_ICON_W + PADDING + m.killerNameWidth + PADDING +
    m.weaponWidth + headshot_width env e + PADDING + PADDING + wallbang_width env e

/-- mid_point_x_weapon (line 143): placement midpoint used for the weapon
icon; involves half the weapon width, hence rational. -/
def mid_point_x_weapon (m : Metrics) : ℚ :=
  (AGENT_ICON_W : ℚ) + (PADDING : ℚ) + (m.killerNameWidth : ℚ) + (PADDING : ℚ) +
    (m.weaponWidth : ℚ) / 2

/-- killer_bg_shape (lines 146-152): the red polygon on the left, pointed at
(mid_point_x, IMG_HEIGHT / 2). -/
def killer_bg_shape (mid tot : ℤ) : List (ℤ × ℤ) :=
  [(0, 0),
   (mid - 20, 0),
   (mid, (IMG_HEIGHT : ℤ) / 2),
   (mid + -20, (IMG_HEIGHT : ℤ)),
   (0, (IMG_HEIGHT : ℤ))]

/-- victim_bg_shape (lines 156-162): the teal polygon on the right, its last
vertex being the same point (mid_point_x, IMG_HEIGHT / 2). -/
def victim_bg_shape (mid tot : ℤ) : List (ℤ × ℤ) :=
  [(mid + -35, 0),
   (tot, 0),
   (tot, (IMG_HEIGHT : ℤ)),
   (mid + -35, (IMG_HEIGHT : ℤ)),
   (mid, (IMG_HEIGHT : ℤ) / 2)]

/-- Helper for the Python substring test: does the character list start with
the given needle? -/
def startsWithCL : List Char → List Char → Bool
  | _, [] => true
  | [], _ :: _ => false
  | a :: as, b :: bs => (a == b) && startsWithCL as bs

/-- Helper for the Python substring test `needle in haystack` over character
lists. -/
def containsSub : List Char → List Char → Bool
  | [], nd => nd.isEmpty
  | a :: as, nd => startsWithCL (a :: as) nd || containsSub as nd

/-- The mirroring condition of line 188: `"_weapon" in weapon.lower()`. -/
def weaponMirrorFlag (weapon : String) : Bool :=
  containsSub weapon.toLower.toList "_weapon".toList

/-- weapon_x (line 187): `int(mid_point_x_weapon - (weapon_width / 2))`,
computed before the mirroring check. -/
def weapon_x (m : Metrics) : ℤ :=
  Int.floor (mid_point_x_weapon m - (m.weaponWidth : ℚ) / 2)

/-- weapon_y (line 186): `int((IMG_HEIGHT - weapon_img.height) / 2)` with the
weapon resized to height 90. -/
def weapon_y : ℤ :=
  ((IMG_HEIGHT : ℤ) - (WEAPON_ICON_HEIGHT : ℤ)) / 2

/-- One recorded paste / text-draw operation: a label naming the pasted
element and the absolute coordinates passed to PIL. -/
structure Paste where
  label : String
  x : ℤ
  y : ℤ
deriving DecidableEq

/-- Shifting a recorded paste, used when a whole previous canvas is pasted
into a larger one at a nonzero offset. -/
def shiftPaste (dx dy : ℤ) (p : Paste) : Paste :=
  ⟨p.label, p.x + dx, p.y + dy⟩

/-- The evolving image: its size, the pastes applied so far (in application
order), and whether the weapon icon was horizontally mirrored before being
pasted. -/
structure Canvas where
  width : ℕ
  height : ℕ
  weaponFlipped : Bool
  pastes : List Paste
deriving DecidableEq

/-- killer_text_x (line 225). -/
def killer_text_x : ℤ := (AGENT_ICON_W : ℤ) + (PADDING : ℤ)

/-- killer_text_y (line 224); Python `int()` truncates toward zero, as does
`Int.div`. -/
def killer_text_y (m : Metrics) : ℤ :=
  Int.tdiv ((IMG_HEIGHT : ℤ) - (m.killerBBoxH : ℤ)) 2

/-- victim_text_x (line 237). -/
def victim_text_x (env : AssetEnv) (e : KillEvent) (m : Metrics) : ℤ :=
  (total_width env e m : ℤ) - (AGENT_ICON_W : ℤ) - (m.victimNameWidth : ℤ)

/-- victim_text_y (line 236). -/
def victim_text_y (m : Metrics) : ℤ :=
  Int.tdiv ((IMG_HEIGHT : ℤ) - (m.victimBBoxH : ℤ)) 2

/-- The yellow rectangle pasted first when is_player_kill (lines 170-173). -/
def yellowRectPastes (e : KillEvent) (tot : ℕ) : List Paste :=
  if e.is_player_kill then [⟨"yellow_rect", (tot : ℤ) - 120, 0⟩] else []

/-- The five unconditional sprite pastes of section 4 (lines 176-191):
killer highlight, killer agent, victim highlight, victim agent (mirrored),
weapon. -/
def corePastes (env : AssetEnv) (e : KillEvent) (m : Metrics) : List Paste :=
  [⟨"killer_agent_highlight", 10, 0⟩,
   ⟨"killer_agent", 0, 0⟩,
   ⟨"victim_agent_highlight", (total_width env e m : ℤ) - (AGENT_ICON_W : ℤ) - 10, 0⟩,
   ⟨"victim_agent", (total_width env e m : ℤ) - (AGENT_ICON_W : ℤ), 0⟩,
   ⟨"weapon", weapon_x m, weapon_y⟩]

/-- The wallbang paste when kept (lines 194-197). -/
def wallbangPastes (env : AssetEnv) (e : KillEvent) (m : Metrics) : List Paste :=
  if effWallbang env e then
    [⟨"wallbang", weapon_x m + (m.weaponWidth : ℤ) + 40,
      ((IMG_HEIGHT : ℤ) - 72) / 2⟩]
  else []

/-- The headshot paste when kept (lines 200-203); its x offset includes the
wallbang_width variable. -/
def headshotPastes (env : AssetEnv) (e : KillEvent) (m : Metrics) : List Paste :=
  if effHeadshot env e then
    [⟨"headshot", weapon_x m + (m.weaponWidth : ℤ) + (wallbang_width env e : ℤ) + 40,
      ((IMG_HEIGHT : ℤ) - 72) / 2⟩]
  else []

/-- The four text draws of section 5 (lines 224-243): each name as a (1, 1)
shadow then the main text. -/
def textPastes (env : AssetEnv) (e : KillEvent) (m : Metrics) : List Paste :=
  [⟨"killer_name_shadow", killer_text_x + 1, killer_text_y m + 1⟩,
   ⟨"killer_name", killer_text_x, killer_text_y m⟩,
   ⟨"victim_name_shadow", victim_text_x env e m + 1, victim_text_y m + 1⟩,
   ⟨"victim_name", victim_text_x env e m, victim_text_y m⟩]

/-- The base image as built by sections 3-5: size (int(total_width), 128)
and all pastes in program order. -/
def baseCanvas (env : AssetEnv) (e : KillEvent) (m : Metrics) : Canvas :=
  { width := total_width env e m
    height := IMG_HEIGHT
    weaponFlipped := weaponMirrorFlag e.weapon
    pastes :=
      yellowRectPastes e (total_width env e m) ++ corePastes env e m ++
        wallbangPastes env e m ++ headshotPastes env e m ++ textPastes env e m }

/-- Python f-string interpolation of the numeral argument: `f"{numeral}"`
renders the value `None` as the string "None". -/
def pyStrOfOpt : Option String → String
  | some s => s
  | none => "None"

/-- output_filename (line 247):
`f"{killer}_vs_{victim}_{numeral}K_{timestamp}_{'Me' if is_player_kill else ''}.png"`. -/
def output_filename (e : KillEvent) (ts : ℕ) : String :=
  e.killer_name ++ "_vs_" ++ e.victim_name ++ "_" ++ pyStrOfOpt e.numeral ++ "K_" ++
    toString ts ++ "_" ++ (if e.is_player_kill then "Me" else "") ++ ".png"

/-- The filename as the specification words it: the numeral slot holds the
numeral value, or the empty string when no numeral is present. Spec-side
definition, kept for comparison with `output_filename`. -/
def specFilename (e : KillEvent) (ts : ℕ) : String :=
  e.killer_name ++ "_vs_" ++ e.victim_name ++ "_" ++
    (match e.numeral with | some n => n | none => "") ++ "K_" ++
    toString ts ++ "_" ++ (if e.is_player_kill then "Me" else "") ++ ".png"

/-- Python truthiness of the numeral argument at `if numeral:` (line 302):
None and the empty string are falsy. -/
def numeralTruthy (e : KillEvent) : Bool :=
  match e.numeral with
  | none => false
  | some s => !s.isEmpty

/-- The player-kill extension step (lines 259-299): the MeBorder highlight is
pasted in place when its file exists (a missing file is caught and skipped),
then a new canvas of width `old + triangleWidth` is allocated, the old image
pasted at (0, 0) and the mirrored yellow triangle pasted on the right at
x = old width, vertically centered with integer floor division. -/
def playerKillStep (env : AssetEnv) (m : Metrics) (c : Canvas) : Canvas :=
  let withHighlight : List Paste :=
    c.pastes ++
      (if env.meBorderOk then [⟨"me_highlight", (c.width : ℤ) - 600 + 30, 0⟩] else [])
  let newW : ℕ := c.width + m.triangleWidth
  let newH : ℕ := max c.height m.triangleHeight
  { width := newW
    height := newH
    weaponFlipped := c.weaponFlipped
    pastes := withHighlight ++ [⟨"me_triangle", (c.width : ℤ), (((newH - m.triangleHeight) / 2 : ℕ) : ℤ)⟩] }

/-- The numeral extension step (lines 302-316): a new canvas of width
`old + numeralWidth` is allocated, the old image pasted at
(numeral width, 0) — shifting every prior paste right by the badge width —
and the numeral badge pasted at the fixed offset (12, 30). -/
def numeralStep (m : Metrics) (c : Canvas) : Canvas :=
  { width := c.width + m.numeralWidth
    height := max c.height m.numeralHeight
    weaponFlipped := c.weaponFlipped
    pastes := c.pastes.map (shiftPaste (m.numeralWidth : ℤ) 0) ++ [⟨"numeral_badge", 12, 30⟩] }

/-- Horizontal shift of a polygon, as in the list comprehensions of lines
333 and 339. -/
def shiftShape (dX : ℤ) (s : List (ℤ × ℤ)) : List (ℤ × ℤ) :=
  s.map (fun p => (p.1 + dX, p.2))

/-- The flattening step (lines 323-346): a background layer the size of the
current image, the killer polygon redrawn shifted right by
`offset_x = background width - total_width` (line 333), the victim polygon
redrawn shifted by -1 (line 339), and the foreground alpha-composited over
the background (line 346). -/
structure Flattened where
  layersBottomToTop : List String
  killerShape : List (ℤ × ℤ)
  victimShape : List (ℤ × ℤ)
deriving DecidableEq

/-- Build the flattened result for the current canvas `c`. -/
def flattenStep (env : AssetEnv) (e : KillEvent) (m : Metrics) (c : Canvas) : Flattened :=
  let offX : ℤ := (c.width : ℤ) - (total_width env e m : ℤ)
  { layersBottomToTop := ["background_layer", "foreground"]
    killerShape :=
      shiftShape offX
        (killer_bg_shape (mid_point_x env e m : ℤ) (total_width env e m : ℤ))
    victimShape :=
      shiftShape (-1)
        (victim_bg_shape (mid_point_x env e m : ℤ) (total_width env e m : ℤ)) }

/-- How one invocation of create_rev_killfeed ends:
* `aborted` — an early `return` before any file was written (missing font,
  line 73, or missing required icon, line 100);
* `crashed saves` — an uncaught FileNotFoundError (missing
  MeBorderTriangle.png at line 276 or missing numeral asset at line 304)
  after the listed `.save` calls already wrote the file;
* `done saves fname c flat` — normal completion: the listed saves in order,
  the generated filename, the final canvas and the flattened background. -/
inductive Outcome where
  | aborted : Outcome
  | crashed : List String → Outcome
  | done : List String → String → Canvas → Flattened → Outcome
deriving DecidableEq

/-- The saves performed, in order. -/
def Outcome.saves : Outcome → List String
  | .aborted => []
  | .crashed s => s
  | .done s _ _ _ => s

/-- Did the call return an artifact? -/
def Outcome.isDone : Outcome → Bool
  | .done _ _ _ _ => true
  | _ => false

/-- Final image width, when the call completed. -/
def Outcome.finalWidth : Outcome → Option ℕ
  | .done _ _ c _ => some c.width
  | _ => none

/-- Final paste list, when the call completed. -/
def Outcome.finalPastes : Outcome → Option (List Paste)
  | .done _ _ c _ => some c.pastes
  | _ => none

/-- Flattened background data, when the call completed. -/
def Outcome.flat : Outcome → Option Flattened
  | .done _ _ _ f => some f
  | _ => none

/-- The numeral stage followed by the unconditional flatten-and-save stage
(lines 302-347), starting from canvas `c` with the saves done so far. -/
def numeralStage (env : AssetEnv) (e : KillEvent) (m : Metrics) (ts : ℕ)
    (c : Canvas) (saves : List String) : Outcome :=
  if numeralTruthy e then
    if env.numeralOk then
      let c2 := numeralStep m c
      Outcome.done (saves ++ ["numeral", "flatten"]) (output_filename e ts) c2
        (flattenStep env e m c2)
    else Outcome.crashed saves
  else
    Outcome.done (saves ++ ["flatten"]) (output_filename e ts) c (flattenStep env e m c)

/-- The whole of create_rev_killfeed as a function of the asset environment,
the arguments, the PIL measurements and the timestamp. -/
def run (env : AssetEnv) (e : KillEvent) (m : Metrics) (ts : ℕ) : Outcome :=
  if env.fontOk then
    if env.killerAgentOk && env.victimAgentOk && env.weaponOk then
      let c0 := baseCanvas env e m
      if e.is_player_kill then
        if env.meBorderTriangleOk then
          numeralStage env e m ts (playerKillStep env m c0) ["base", "playerkill"]
        else Outcome.crashed ["base"]
      else numeralStage env e m ts c0 ["base"]
    else Outcome.aborted
  else Outcome.aborted

/-- The full save sequence the specification describes for a given event:
base save, player-kill re-save if flagged, numeral re-save if present, final
flatten re-save. -/
def fullExpectedSaves (e : KillEvent) : List String :=
  ["base"] ++ (if e.is_player_kill then ["playerkill"] else []) ++
    (if numeralTruthy e then ["numeral"] else []) ++ ["flatten"]

/-- The all-or-nothing property the specification claims of a run: either it
aborted before any save, or it completed with the full save sequence; a
crash after a partial sequence of saves violates it. -/
def savesComplete (e : KillEvent) (o : Outcome) : Bool :=
  match o with
  | .aborted => true
  | .crashed _ => false
  | .done s _ _ _ => s == fullExpectedSaves e

/-- Sample environment with every asset present. -/
def env0 : AssetEnv := ⟨true, true, true, true, true, true, true, true, true⟩

/-- Sample environment in which only MeBorderTriangle.png is missing. -/
def envTriMissing : AssetEnv := { env0 with meBorderTriangleOk := false }

/-- Sample environment in which only the optional headshot and wallbang
icons are missing. -/
def envOptMissing : AssetEnv := { env0 with headshotOk := false, wallbangOk := false }

/-- Sample event: no flags, no numeral. -/
def e0 : KillEvent := ⟨"A", "B", "Jett.png", "Sage.png", "classic.png", false, false, false, none⟩

/-- Sample event flagged as a player kill. -/
def ePK : KillEvent := { e0 with is_player_kill := true }

/-- Sample event flagged as a player kill with a numeral. -/
def ePKnum : KillEvent := { e0 with is_player_kill := true, numeral := some "5" }

/-- Sample event with a numeral only. -/
def eNum : KillEvent := { e0 with numeral := some "3" }

/-- Sample event with both optional icons requested. -/
def eOpt : KillEvent := { e0 with is_headshot := true, is_wallbang := true }

/-- Sample metrics: all measurements zero. -/
def m0 : Metrics := ⟨0, 0, 0, 0, 0, 0, 0, 0, 0⟩

/-- Sample metrics with nonzero measurements. -/
def m1 : Metrics := ⟨10, 20, 30, 60, 60, 100, 128, 50, 70⟩

/-- The canvas a completed run ends with, before flattening: the base image,
extended by the player-kill step and the numeral step when they apply. -/
def finalCanvasOf (env : AssetEnv) (e : KillEvent) (m : Metrics) : Canvas :=
  let c1 :=
    if e.is_player_kill then playerKillStep env m (baseCanvas env e m)
    else baseCanvas env e m
  if numeralTruthy e then numeralStep m c1 else c1

/-- A run with the font, the required icons, and the conditionally required
overlay assets present completes with the full save sequence. -/
lemma run_eq_done (env : AssetEnv) (e : KillEvent) (m : Metrics) (ts : ℕ)
    (hf : env.fontOk = true)
    (hreq : (env.killerAgentOk && env.victimAgentOk && env.weaponOk) = true)
    (hpk : e.is_player_kill = true → env.meBorderTriangleOk = true)
    (hnum : numeralTruthy e = true → env.numeralOk = true) :
    run env e m ts =
      Outcome.done (fullExpectedSaves e) (output_filename e ts)
        (finalCanvasOf env e m) (flattenStep env e m (finalCanvasOf env e m)) := by
  unfold run numeralStage finalCanvasOf fullExpectedSaves
  cases hpk2 : e.is_player_kill with
  | true =>
    cases hn : numeralTruthy e with
    | true => simp [hf, hreq, hpk2, hpk hpk2, hn, hnum hn]
    | false => simp [hf, hreq, hpk2, hpk hpk2, hn]
  | false =>
    cases hn : numeralTruthy e with
    | true => simp [hf, hreq, hpk2, hn, hnum hn]
    | false => simp [hf, hreq, hpk2, hn]

/-- The width of the completed canvas: base width plus the triangle width
when the event is a player kill, plus the numeral badge width when a numeral
is present. -/
lemma finalCanvasOf_width (env : AssetEnv) (e : KillEvent) (m : Metrics) :
    (finalCanvasOf env e m).width =
      total_width env e m + (if e.is_player_kill then m.triangleWidth else 0) +
        (if numeralTruthy e then m.numeralWidth else 0) := by
  unfold finalCanvasOf playerKillStep numeralStep baseCanvas
  cases e.is_player_kill <;> cases numeralTruthy e <;> simp

/-- The killer agent icon is pasted at (0, 0) while building the base
image. -/
lemma killer_agent_mem_base (env : AssetEnv) (e : KillEvent) (m : Metrics) :
    (⟨"killer_agent", 0, 0⟩ : Paste) ∈ (baseCanvas env e m).pastes := by
  simp [baseCanvas, corePastes]

/-- The last save of the full sequence is the flatten save. -/
lemma fullExpectedSaves_getLast (e : KillEvent) :
    (fullExpectedSaves e).getLast? = some "flatten" := by
  unfold fullExpectedSaves
  cases e.is_player_kill <;> cases numeralTruthy e <;> rfl

/-- Closed form of the weapon paste x-coordinate: the floor disappears
because the half weapon widths cancel. -/
lemma weapon_x_eq (m : Metrics) : weapon_x m = 336 + (m.killerNameWidth : ℤ) := by
  unfold weapon_x mid_point_x_weapon AGENT_ICON_W PADDING
  have h : ((256 : ℕ) : ℚ) + ((40 : ℕ) : ℚ) + (m.killerNameWidth : ℚ) + ((40 : ℕ) : ℚ) +
      (m.weaponWidth : ℚ) / 2 - (m.weaponWidth : ℚ) / 2 =
      ((336 + (m.killerNameWidth : ℤ) : ℤ) : ℚ) := by
    push_cast
    ring
  rw [h, Int.floor_intCast]

/-- Characterisation of the prefix test on character lists. -/
lemma startsWithCL_iff (nd l : List Char) :
    startsWithCL l nd = true ↔ ∃ post, l = nd ++ post := by
  induction nd generalizing l with
  | nil =>
    simp only [startsWithCL, List.nil_append]
    exact ⟨fun _ => ⟨l, rfl⟩, fun _ => trivial⟩
  | cons b bs ih =>
    cases l with
    | nil =>
      simp [startsWithCL]
    | cons a as =>
      simp only [startsWithCL, Bool.and_eq_true, beq_iff_eq, ih, List.cons_append,
        List.cons.injEq]
      constructor
      · rintro ⟨hab, post, hpost⟩
        exact ⟨post, hab, hpost⟩
      · rintro ⟨post, hab, hpost⟩
        exact ⟨hab, post, hpost⟩

/-- Characterisation of the substring test on character lists: it holds
exactly when the needle occurs contiguously in the haystack. -/
lemma containsSub_iff (nd l : List Char) :
    containsSub l nd = true ↔ ∃ pre post, l = pre ++ nd ++ post := by
  induction l with
  | nil =>
    simp only [containsSub, List.isEmpty_iff]
    constructor
    · rintro rfl
      exact ⟨[], [], rfl⟩
    · rintro ⟨pre, post, h⟩
      rcases List.append_eq_nil.mp h.symm with ⟨h1, -⟩
      exact (List.append_eq_nil.mp h1).2
  | cons a as ih =>
    simp only [containsSub, Bool.or_eq_true, startsWithCL_iff, ih]
    constructor
    · rintro (⟨post, hpost⟩ | ⟨pre, post, hpost⟩)
      · exact ⟨[], post, by simpa using hpost⟩
      · exact ⟨a :: pre, post, by simp [hpost]⟩
    · rintro ⟨pre, post, hpost⟩
      cases pre with
      | nil => exact Or.inl ⟨post, by simpa using hpost⟩
      | cons x xs =>
        simp only [List.cons_append] at hpost
        exact Or.inr ⟨xs, post, (List.cons.inj hpost).2⟩

/-- The mirroring flag holds exactly when "_weapon" occurs in the lowercased
weapon filename. -/
lemma weaponMirrorFlag_iff (w : String) :
    weaponMirrorFlag w = true ↔
      ∃ pre post, w.toLower.toList = pre ++ "_weapon".toList ++ post :=
  containsSub_iff _ _

/-- C1 (counterexample): at a concrete invocation with all measurements zero
the computed total width is 712, while the sum the claim states — exactly
four padding terms plus the element widths — is 672. -/
theorem c1_counterexample :
    total_width env0 e0 m0 ≠ claimedTotalWidth env0 e0 m0 := by decide

/-- C1 (amended): the computed total canvas width equals the claimed
four-padding sum plus one additional padding term — the code sums five
PADDING terms, the fifth sitting between the headshot and wallbang
contributions. -/
theorem c1_total_width (env : AssetEnv) (e : KillEvent) (m : Metrics) :
    total_width env e m = claimedTotalWidth env e m + PADDING := by
  unfold total_width claimedTotalWidth
  omega

/-- C2 (counterexample): with MeBorderTriangle.png missing and the event
flagged as a player kill, the base save is written and the call then raises
an uncaught FileNotFoundError, terminating abnormally before the final
flatten save. -/
theorem c2_counterexample :
    run envTriMissing ePK m0 0 = Outcome.crashed ["base"] ∧
      savesComplete ePK (run envTriMissing ePK m0 0) = false :=
  ⟨rfl, rfl⟩

/-- C2 (amended): provided the triangle asset exists whenever the event is a
player kill and the numeral asset exists whenever a numeral is present,
every invocation either aborts before any file is written or completes the
full save sequence; when one of those two assets is missing the base file is
written and the call terminates abnormally before the final flatten save. -/
theorem c2_save_sequence (env : AssetEnv) (e : KillEvent) (m : Metrics) (ts : ℕ)
    (hpk : e.is_player_kill = true → env.meBorderTriangleOk = true)
    (hnum : numeralTruthy e = true → env.numeralOk = true) :
    savesComplete e (run env e m ts) = true := by
  cases hf : env.fontOk with
  | false => simp [run, hf, savesComplete]
  | true =>
    cases hreq : (env.killerAgentOk && env.victimAgentOk && env.weaponOk) with
    | false => simp [run, hf, hreq, savesComplete]
    | true =>
      rw [run_eq_done env e m ts hf hreq hpk hnum]
      simp [savesComplete]

/-- C2 (witness): a concrete player-kill invocation with a numeral and all
assets present runs the full save sequence. -/
theorem c2_save_sequence_witness :
    savesComplete ePKnum (run env0 ePKnum m0 3) = true :=
  c2_save_sequence env0 ePKnum m0 3 (fun _ => rfl) (fun _ => rfl)

/-- C3 (counterexample): at a concrete completed invocation the net width
delta is 0, yet the victim-side polygon is redrawn shifted by -1 rather than
by the delta. -/
theorem c3_counterexample :
    (run env0 e0 m0 0).flat =
        some (flattenStep env0 e0 m0 (finalCanvasOf env0 e0 m0)) ∧
      (flattenStep env0 e0 m0 (finalCanvasOf env0 e0 m0)).victimShape ≠
        shiftShape (((finalCanvasOf env0 e0 m0).width : ℤ) - (total_width env0 e0 m0 : ℤ))
          (victim_bg_shape (mid_point_x env0 e0 m0 : ℤ) (total_width env0 e0 m0 : ℤ)) := by
  refine ⟨rfl, ?_⟩
  decide

/-- C3 (amended): in the final flatten only the killer-side polygon is
redrawn shifted by the net width delta (final width minus the originally
computed total width); the victim-side polygon is redrawn shifted left by a
fixed single pixel regardless of the delta; the foreground is
alpha-composited over this background layer and the definitive (last) save
is the flatten save. -/
theorem c3_flatten_shift (env : AssetEnv) (e : KillEvent) (m : Metrics) (ts : ℕ)
    (hf : env.fontOk = true)
    (hreq : (env.killerAgentOk && env.victimAgentOk && env.weaponOk) = true)
    (hpk : e.is_player_kill = true → env.meBorderTriangleOk = true)
    (hnum : numeralTruthy e = true → env.numeralOk = true) :
    ∃ c : Canvas,
      (run env e m ts).finalWidth = some c.width ∧
      (run env e m ts).flat = some (flattenStep env e m c) ∧
      (flattenStep env e m c).killerShape =
        shiftShape ((c.width : ℤ) - (total_width env e m : ℤ))
          (killer_bg_shape (mid_point_x env e m : ℤ) (total_width env e m : ℤ)) ∧
      (flattenStep env e m c).victimShape =
        shiftShape (-1)
          (victim_bg_shape (mid_point_x env e m : ℤ) (total_width env e m : ℤ)) ∧
      ((mid_point_x env e m : ℤ) + ((c.width : ℤ) - (total_width env e m : ℤ)), 64) ∈
        (flattenStep env e m c).killerShape ∧
      ((mid_point_x env e m : ℤ) - 1, 64) ∈ (flattenStep env e m c).victimShape ∧
      (flattenStep env e m c).layersBottomToTop = ["background_layer", "foreground"] ∧
      (run env e m ts).saves.getLast? = some "flatten" := by
  refine ⟨finalCanvasOf env e m, ?_, ?_, rfl, rfl, ?_, ?_, rfl, ?_⟩
  · rw [run_eq_done env e m ts hf hreq hpk hnum]
    rfl
  · rw [run_eq_done env e m ts hf hreq hpk hnum]
    rfl
  · norm_num [flattenStep, shiftShape, killer_bg_shape, IMG_HEIGHT]
  · norm_num [flattenStep, shiftShape, victim_bg_shape, IMG_HEIGHT]
    ring
  · rw [run_eq_done env e m ts hf hreq hpk hnum]
    simpa [Outcome.saves] using fullExpectedSaves_getLast e

/-- C3 (witness): the amended flatten description holds at a concrete
player-kill invocation with a numeral, where the delta is nonzero. -/
theorem c3_flatten_shift_witness :
    ∃ c : Canvas,
      (run env0 ePKnum m1 0).finalWidth = some c.width ∧
      (run env0 ePKnum m1 0).flat = some (flattenStep env0 ePKnum m1 c) ∧
      (flattenStep env0 ePKnum m1 c).killerShape =
        shiftShape ((c.width : ℤ) - (total_width env0 ePKnum m1 : ℤ))
          (killer_bg_shape (mid_point_x env0 ePKnum m1 : ℤ) (total_width env0 ePKnum m1 : ℤ)) ∧
      (flattenStep env0 ePKnum m1 c).victimShape =
        shiftShape (-1)
          (victim_bg_shape (mid_point_x env0 ePKnum m1 : ℤ) (total_width env0 ePKnum m1 : ℤ)) ∧
      ((mid_point_x env0 ePKnum m1 : ℤ) +
          ((c.width : ℤ) - (total_width env0 ePKnum m1 : ℤ)), 64) ∈
        (flattenStep env0 ePKnum m1 c).killerShape ∧
      ((mid_point_x env0 ePKnum m1 : ℤ) - 1, 64) ∈
        (flattenStep env0 ePKnum m1 c).victimShape ∧
      (flattenStep env0 ePKnum m1 c).layersBottomToTop = ["background_layer", "foreground"] ∧
      (run env0 ePKnum m1 0).saves.getLast? = some "flatten" :=
  c3_flatten_shift env0 ePKnum m1 0 rfl rfl (fun _ => rfl) (fun _ => rfl)

/-- C4 (counterexample): at a concrete invocation the weapon icon's
horizontal center is at x = 336, while the seam between the killer-colored
and victim-colored background regions is at x = 416. -/
theorem c4_counterexample :
    ¬ ((weapon_x m0 : ℚ) + (m0.weaponWidth : ℚ) / 2 =
        ((mid_point_x env0 e0 m0 : ℕ) : ℚ)) := by
  rw [weapon_x_eq]
  norm_num [mid_point_x, headshot_width, wallbang_width, effHeadshot, effWallbang,
    AGENT_ICON_W, PADDING, m0, env0, e0]

/-- C4 (amended): the weapon icon's horizontal center coincides with
mid_point_x_weapon — the x-coordinate after the killer icon, padding, killer
name and padding, plus half the weapon width — which is always strictly to
the left of the seam mid_point_x between the two background polygons. -/
theorem c4_weapon_center (m : Metrics) :
    ((weapon_x m : ℚ) + (m.weaponWidth : ℚ) / 2 = mid_point_x_weapon m) ∧
      ∀ (env : AssetEnv) (e : KillEvent),
        mid_point_x_weapon m < ((mid_point_x env e m : ℕ) : ℚ) := by
  constructor
  · rw [weapon_x_eq]
    unfold mid_point_x_weapon AGENT_ICON_W PADDING
    push_cast
    ring
  · intro env e
    have h : 416 + m.killerNameWidth + m.weaponWidth ≤ mid_point_x env e m := by
      unfold mid_point_x AGENT_ICON_W PADDING
      omega
    have h2 : ((416 + m.killerNameWidth + m.weaponWidth : ℕ) : ℚ) ≤
        ((mid_point_x env e m : ℕ) : ℚ) := by
      exact_mod_cast h
    unfold mid_point_x_weapon AGENT_ICON_W PADDING
    push_cast at h2 ⊢
    have h3 : (0 : ℚ) ≤ (m.weaponWidth : ℚ) := by positivity
    linarith

/-- C5 (counterexample): in create_rev_killfeed the killer agent icon is
pasted at x = 0 (the left edge) and the victim agent icon at x = 456 (the
right edge) of a 712-wide canvas, so the killer is on the left, not on the
right. -/
theorem c5_counterexample :
    (baseCanvas env0 e0 m0).pastes.filter (fun p => p.label == "killer_agent") =
        [⟨"killer_agent", 0, 0⟩] ∧
      (baseCanvas env0 e0 m0).pastes.filter (fun p => p.label == "victim_agent") =
        [⟨"victim_agent", 456, 0⟩] ∧
      total_width env0 e0 m0 = 712 ∧ ¬ ((0 : ℤ) > 456) := by
  refine ⟨?_, ?_, ?_, ?_⟩ <;> decide

/-- C5 (amended): create_rev_killfeed places the killer's agent icon and
name on the left (icon at x = 0, name at x = 296) and the victim's on the
right (icon at x = total width - 256, name right-anchored before it); the
killer/victim sides are not spatially swapped to killer-on-the-right. -/
theorem c5_reverse_layout (env : AssetEnv) (e : KillEvent) (m : Metrics) :
    (baseCanvas env e m).pastes.filter (fun p => p.label == "killer_agent") =
        [⟨"killer_agent", 0, 0⟩] ∧
      (baseCanvas env e m).pastes.filter (fun p => p.label == "victim_agent") =
        [⟨"victim_agent", (total_width env e m : ℤ) - (AGENT_ICON_W : ℤ), 0⟩] ∧
      (0 : ℤ) + (AGENT_ICON_W : ℤ) ≤ (total_width env e m : ℤ) - (AGENT_ICON_W : ℤ) ∧
      (baseCanvas env e m).pastes.filter (fun p => p.label == "killer_name") =
        [⟨"killer_name", killer_text_x, killer_text_y m⟩] ∧
      (baseCanvas env e m).pastes.filter (fun p => p.label == "victim_name") =
        [⟨"victim_name", victim_text_x env e m, victim_text_y m⟩] ∧
      killer_text_x < victim_text_x env e m := by
  have htot : 712 + m.killerNameWidth + m.weaponWidth + m.victimNameWidth ≤
      total_width env e m := by
    unfold total_width AGENT_ICON_W PADDING
    omega
  refine ⟨?_, ?_, ?_, ?_, ?_, ?_⟩
  · unfold baseCanvas yellowRectPastes corePastes wallbangPastes headshotPastes textPastes
    cases e.is_player_kill <;> cases effWallbang env e <;> cases effHeadshot env e <;> rfl
  · unfold baseCanvas yellowRectPastes corePastes wallbangPastes headshotPastes textPastes
    cases e.is_player_kill <;> cases effWallbang env e <;> cases effHeadshot env e <;> rfl
  · unfold AGENT_ICON_W
    omega
  · unfold baseCanvas yellowRectPastes corePastes wallbangPastes headshotPastes textPastes
    cases e.is_player_kill <;> cases effWallbang env e <;> cases effHeadshot env e <;> rfl
  · unfold baseCanvas yellowRectPastes corePastes wallbangPastes headshotPastes textPastes
    cases e.is_player_kill <;> cases effWallbang env e <;> cases effHeadshot env e <;> rfl
  · unfold killer_text_x victim_text_x AGENT_ICON_W PADDING
    omega

/-- C6 (counterexample): with no numeral supplied, the f-string renders the
Python value None as "None": the generated filename is
"A_vs_B_NoneK_7_.png", not the claimed empty-numeral "A_vs_B_K_7_.png". -/
theorem c6_counterexample :
    output_filename e0 7 ≠ specFilename e0 7 ∧
      output_filename e0 7 = "A_vs_B_NoneK_7_.png" := by
  refine ⟨?_, ?_⟩ <;> decide

/-- C6 (amended): the generated filename encodes the killer name, the victim
name, the numeral slot rendered as str(numeral) — the numeral value when
present but the string "None" (not the empty string) when absent — a Unix
timestamp, and the "Me" marker exactly when the event is a player kill. -/
theorem c6_filename (e : KillEvent) (ts : ℕ) :
    (e.numeral ≠ none → output_filename e ts = specFilename e ts) ∧
      (e.numeral = none →
        output_filename e ts =
          e.killer_name ++ "_vs_" ++ e.victim_name ++ "_" ++ "None" ++ "K_" ++
            toString ts ++ "_" ++ (if e.is_player_kill then "Me" else "") ++ ".png") := by
  constructor
  · intro h
    cases hn : e.numeral with
    | none => exact absurd hn h
    | some n => simp [output_filename, specFilename, pyStrOfOpt, hn]
  · intro h
    simp [output_filename, pyStrOfOpt, h]

/-- C6 (witness): the amended filename description evaluated at concrete
events, one with numeral "3" and one without a numeral. -/
theorem c6_filename_witness :
    output_filename eNum 7 = specFilename eNum 7 ∧
      output_filename e0 7 =
        e0.killer_name ++ "_vs_" ++ e0.victim_name ++ "_" ++ "None" ++ "K_" ++
          toString 7 ++ "_" ++ (if e0.is_player_kill then "Me" else "") ++ ".png" :=
  ⟨(c6_filename eNum 7).1 (by decide), (c6_filename e0 7).2 rfl⟩

/-- C7: when the headshot (resp. wallbang) icon file is missing while the
corresponding flag is set — the other needed assets being present — the
flag is downgraded to absent, the render still completes and returns an
artifact, and the computed canvas width is smaller by exactly the icon
width plus its fixed padding (72 + 10) than in the same invocation with
the icon present. -/
theorem c7_missing_optional_icon (env : AssetEnv) (e : KillEvent) (m : Metrics) (ts : ℕ)
    (hf : env.fontOk = true)
    (hreq : (env.killerAgentOk && env.victimAgentOk && env.weaponOk) = true)
    (hpk : e.is_player_kill = true → env.meBorderTriangleOk = true)
    (hnum : numeralTruthy e = true → env.numeralOk = true) :
    (env.headshotOk = false → e.is_headshot = true →
        effHeadshot env e = false ∧ (run env e m ts).isDone = true ∧
          total_width { env with headshotOk := true } e m =
            total_width env e m + (HEADSHOT_ICON_W + 10)) ∧
      (env.wallbangOk = false → e.is_wallbang = true →
        effWallbang env e = false ∧ (run env e m ts).isDone = true ∧
          total_width { env with wallbangOk := true } e m =
            total_width env e m + (72 + 10)) := by
  constructor
  · intro h1 h2
    refine ⟨by simp [effHeadshot, h1], ?_, ?_⟩
    · rw [run_eq_done env e m ts hf hreq hpk hnum]
      rfl
    · simp [total_width, headshot_width, wallbang_width, effHeadshot, effWallbang,
        h1, h2, HEADSHOT_ICON_W]
      omega
  · intro h1 h2
    refine ⟨by simp [effWallbang, h1], ?_, ?_⟩
    · rw [run_eq_done env e m ts hf hreq hpk hnum]
      rfl
    · simp [total_width, headshot_width, wallbang_width, effHeadshot, effWallbang,
        h1, h2]
      omega

/-- C7 (witness): a concrete invocation with both optional icon files
missing and both flags set still completes, with the headshot flag
downgraded and the width smaller by exactly 82. -/
theorem c7_missing_optional_icon_witness :
    effHeadshot envOptMissing eOpt = false ∧
      (run envOptMissing eOpt m0 0).isDone = true ∧
      total_width { envOptMissing with headshotOk := true } eOpt m0 =
        total_width envOptMissing eOpt m0 + (HEADSHOT_ICON_W + 10) :=
  (c7_missing_optional_icon envOptMissing eOpt m0 0 rfl rfl
      (fun h => Bool.noConfusion h) (fun h => Bool.noConfusion h)).1 rfl rfl

/-- C8: for every completed invocation, the final image width equals the
computed base width, plus the triangle asset width exactly when the event
is a player kill, plus the numeral badge width exactly when a numeral is
present; in the numeral case the badge is pasted at the fixed offset
(12, 30) and the prior image content is shifted right by the badge width
(the killer agent paste moves from x = 0 to x = badge width). -/
theorem c8_extension_widths (env : AssetEnv) (e : KillEvent) (m : Metrics) (ts : ℕ)
    (hf : env.fontOk = true)
    (hreq : (env.killerAgentOk && env.victimAgentOk && env.weaponOk) = true)
    (hpk : e.is_player_kill = true → env.meBorderTriangleOk = true)
    (hnum : numeralTruthy e = true → env.numeralOk = true) :
    (run env e m ts).finalWidth =
        some (total_width env e m + (if e.is_player_kill then m.triangleWidth else 0) +
          (if numeralTruthy e then m.numeralWidth else 0)) ∧
      (numeralTruthy e = true →
        ∃ l, (run env e m ts).finalPastes = some l ∧
          (⟨"numeral_badge", 12, 30⟩ : Paste) ∈ l ∧
          (⟨"killer_agent", (m.numeralWidth : ℤ), 0⟩ : Paste) ∈ l) := by
  rw [run_eq_done env e m ts hf hreq hpk hnum]
  constructor
  · show some (finalCanvasOf env e m).width = _
    rw [finalCanvasOf_width]
  · intro hn
    refine ⟨(finalCanvasOf env e m).pastes, rfl, ?_, ?_⟩
    · unfold finalCanvasOf
      simp only [hn, if_true]
      unfold numeralStep
      simp
    · have hbase : (⟨"killer_agent", 0, 0⟩ : Paste) ∈
          (if e.is_player_kill then playerKillStep env m (baseCanvas env e m)
            else baseCanvas env e m).pastes := by
        cases e.is_player_kill with
        | false => exact killer_agent_mem_base env e m
        | true =>
          show _ ∈ (playerKillStep env m (baseCanvas env e m)).pastes
          unfold playerKillStep
          simp only [List.mem_append]
          exact Or.inl (Or.inl (killer_agent_mem_base env e m))
      unfold finalCanvasOf
      simp only [hn, if_true]
      unfold numeralStep
      simp only [List.mem_append]
      left
      have hmap := List.mem_map_of_mem (shiftPaste (m.numeralWidth : ℤ) 0) hbase
      simpa [shiftPaste] using hmap

/-- C8 (witness): the width equation evaluated at a concrete completed
player-kill invocation with a numeral. -/
theorem c8_extension_widths_witness :
    (run env0 ePKnum m1 0).finalWidth =
      some (total_width env0 ePKnum m1 +
        (if ePKnum.is_player_kill then m1.triangleWidth else 0) +
        (if numeralTruthy ePKnum then m1.numeralWidth else 0)) :=
  (c8_extension_widths env0 ePKnum m1 0 rfl rfl (fun _ => rfl) (fun _ => rfl)).1

/-- C9: the two background polygons form a chevron seam: both contain the
shared point vertex (mid_point_x, 64) — 64 being half the fixed 128 canvas
height — and their top and bottom edge vertices are horizontally offset
from the point by the fixed amounts 20 (killer side) and 35 (victim side),
so the boundary is pointed rather than a vertical line. -/
theorem c9_seam_geometry (env : AssetEnv) (e : KillEvent) (m : Metrics) :
    (((mid_point_x env e m : ℤ), 64) ∈
        killer_bg_shape (mid_point_x env e m : ℤ) (total_width env e m : ℤ) ∧
      ((mid_point_x env e m : ℤ), 64) ∈
        victim_bg_shape (mid_point_x env e m : ℤ) (total_width env e m : ℤ)) ∧
    (64 : ℤ) * 2 = (IMG_HEIGHT : ℤ) ∧
    ((mid_point_x env e m : ℤ) - 20, 0) ∈
      killer_bg_shape (mid_point_x env e m : ℤ) (total_width env e m : ℤ) ∧
    ((mid_point_x env e m : ℤ) - 20, (IMG_HEIGHT : ℤ)) ∈
      killer_bg_shape (mid_point_x env e m : ℤ) (total_width env e m : ℤ) ∧
    (mid_point_x env e m : ℤ) - 20 ≠ (mid_point_x env e m : ℤ) ∧
    ((mid_point_x env e m : ℤ) - 35, 0) ∈
      victim_bg_shape (mid_point_x env e m : ℤ) (total_width env e m : ℤ) ∧
    ((mid_point_x env e m : ℤ) - 35, (IMG_HEIGHT : ℤ)) ∈
      victim_bg_shape (mid_point_x env e m : ℤ) (total_width env e m : ℤ) ∧
    (mid_point_x env e m : ℤ) - 35 ≠ (mid_point_x env e m : ℤ) := by
  refine ⟨⟨?_, ?_⟩, by norm_num [IMG_HEIGHT], ?_, ?_, by omega, ?_, ?_, by omega⟩ <;>
    norm_num [killer_bg_shape, victim_bg_shape, IMG_HEIGHT] <;> ring_nf <;> tauto

/-- C10: the weapon icon is horizontally mirrored exactly when the
lowercased weapon filename contains the substring "_weapon", and the
mirroring does not affect the paste position: the single weapon paste of
the base image sits at (weapon_x, weapon_y), with weapon_x computed before
the check from the pre-mirror weapon width and equal to 336 plus the killer
name width. -/
theorem c10_weapon_mirror (env : AssetEnv) (e : KillEvent) (m : Metrics) :
    ((baseCanvas env e m).weaponFlipped = true ↔
        ∃ pre post, e.weapon.toLower.toList = pre ++ "_weapon".toList ++ post) ∧
      (baseCanvas env e m).pastes.filter (fun p => p.label == "weapon") =
        [⟨"weapon", weapon_x m, weapon_y⟩] ∧
      weapon_x m = 336 + (m.killerNameWidth : ℤ) := by
  refine ⟨weaponMirrorFlag_iff e.weapon, ?_, weapon_x_eq m⟩
  unfold baseCanvas yellowRectPastes corePastes wallbangPastes headshotPastes textPastes
  cases e.is_player_kill <;> cases effWallbang env e <;> cases effHeadshot env e <;> rfl

end Killfeed
